/-
  Verification of the map-view lifecycle core of the arcgisMapExm2-Angular
  repository (src/app/services/map.ts and src/app/app.ts), as a shallow
  embedding in Lean 4.

  Modelling notes:
  * The program state visible to the core is collected in `ServiceState`:
    the service's private `_view` slot, the two DOM elements the service
    looks up (`calcite-navigation-logo` and `calcite-loader`), the console
    log, and the queue of `setTimeout` registrations made by the handler.
  * A `MapView` handle is a heap object in TypeScript; operations mutate
    its interior (graphics collection, popup, registered event listeners)
    without ever reassigning the `_view` slot.  The embedding folds the
    object's interior into the `MapView` value and keeps an `id` field as
    the object identity, so "the stored handle is unchanged" is expressed
    as preservation of `Option`-ness and of `id`.
  * `view.on('layerview-create', cb)` registrations are modelled by the
    `subs` list on the handle: each `EventHandle` records whether it is
    still attached (`active`, cleared by `handle.remove()`) and how many
    times its callback has run (`invocations`).  Delivering one
    `layerview-create` event is `fireLayerviewCreate`.
  * Numbers that the code merely stores and forwards (lon/lat/zoom) are
    modelled as rationals; no arithmetic is performed on them.
  * `this._view.popup!.open(...)` throws a TypeError when `popup` is
    absent; `dropMarker` therefore returns the state reached so far
    together with an `Option Unit` error marker (heap mutations already
    performed persist past the throw, as in JavaScript).
-/
import Mathlib

set_option autoImplicit false

/-- `PortalItem` projection consumed by `updateHeaderFromPortalItem`:
title, snippet (may be absent, hence the `?? ''` in the source),
thumbnail URL and item-page URL. -/
structure PortalItem where
  title : String
  snippet : Option String
  thumbnailUrl : String
  itemPageUrl : String
deriving DecidableEq, Repr

/-- The WebMap reference reachable from the view; its `portalItem` may be
absent. -/
structure WebMap where
  portalItem : Option PortalItem
deriving DecidableEq, Repr

/-- Attributes attached to the marker graphic by `dropMarker`. -/
structure GraphicAttributes where
  title : String
  lon : ℚ
  lat : ℚ
deriving DecidableEq, Repr

/-- A point geometry (`{ type: 'point', longitude, latitude }`). -/
structure PointGeom where
  longitude : ℚ
  latitude : ℚ
deriving DecidableEq, Repr

/-- A popup template (`title` heading and `content` body strings). -/
structure PopupTemplate where
  title : String
  content : String
deriving DecidableEq, Repr

/-- A graphic as constructed by `dropMarker` (point geometry, the
simple-marker symbol size, attributes and popup template). -/
structure Graphic where
  geometry : PointGeom
  symbolSize : Nat
  attributes : GraphicAttributes
  popupTemplate : PopupTemplate
deriving DecidableEq, Repr

/-- The argument record of `popup.open({ features, location })`. -/
structure PopupOpenArgs where
  features : List Graphic
  location : PointGeom
deriving DecidableEq, Repr

/-- The view's popup control; `openArgs` records the last `open` call. -/
structure Popup where
  openArgs : Option PopupOpenArgs
deriving DecidableEq, Repr

/-- One `view.on('layerview-create', ...)` registration: `active` is
cleared by `handle.remove()`, `invocations` counts callback runs. -/
structure EventHandle where
  active : Bool
  invocations : Nat
deriving DecidableEq, Repr

/-- The MapView handle.  `id` is the heap identity of the object; `map`,
`graphics`, `popup` and the listener list `subs` are its interior. -/
structure MapView where
  id : Nat
  map : Option WebMap
  graphics : List Graphic
  popup : Option Popup
  subs : List EventHandle
deriving DecidableEq, Repr

/-- The `calcite-navigation-logo` element's five attributes; each is
absent until written. -/
structure NavLogo where
  heading : Option String
  description : Option String
  thumbnail : Option String
  href : Option String
  label : Option String
deriving DecidableEq, Repr

/-- The `calcite-loader` element: only its `hidden` flag is touched. -/
structure Loader where
  hidden : Bool
deriving DecidableEq, Repr

/-- A `setTimeout(() => hideLoader(reason), delayMs)` registration. -/
structure ScheduledTimeout where
  delayMs : Nat
  reason : String
deriving DecidableEq, Repr

/-- The record returned by `goTo` when a view is stored: the delegated
`view.goTo({ center, zoom })` call. -/
structure GoToRequest where
  viewId : Nat
  center : ℚ × ℚ
  zoom : ℚ
deriving DecidableEq, Repr

/-- Program state visible to the core: the service's `_view` slot, the two
optional DOM elements, the console log and the pending timeouts. -/
structure ServiceState where
  _view : Option MapView
  navLogo : Option NavLogo
  loader : Option Loader
  log : List String
  timeouts : List ScheduledTimeout
deriving DecidableEq, Repr

/-- State at service construction: `_view` starts undefined; the DOM
elements are whatever the page holds; nothing logged or scheduled. -/
def initState (navLogo : Option NavLogo) (loader : Option Loader) : ServiceState :=
  { _view := none, navLogo := navLogo, loader := loader, log := [], timeouts := [] }

/-- The stored handle's object identity, when a handle is stored. -/
def handleId (s : ServiceState) : Option Nat :=
  s._view.map (fun v => v.id)

namespace MapService

/-- `setView(view) { this._view = view; }` -/
def setView (view : MapView) (s : ServiceState) : ServiceState :=
  { s with _view := some view }

/-- `get view(): MapView | undefined { return this._view; }` -/
def view (s : ServiceState) : Option MapView :=
  s._view

/-- The `this._view?.map`, `webmap?.portalItem` optional chain read by
`updateHeaderFromPortalItem`. -/
def portalItemChain (s : ServiceState) : Option PortalItem :=
  match s._view with
  | none => none
  | some v =>
    match v.map with
    | none => none
    | some webmap => webmap.portalItem

/-- `updateHeaderFromPortalItem()`: reads the portal item through the
optional chain, looks up `calcite-navigation-logo`, returns untouched if
either is absent, otherwise writes all five header attributes. -/
def updateHeaderFromPortalItem (s : ServiceState) : ServiceState :=
  match portalItemChain s, s.navLogo with
  | some portalItem, some _ =>
    let logo : NavLogo :=
      { heading := some portalItem.title
        description := some (portalItem.snippet.getD "")
        thumbnail := some portalItem.thumbnailUrl
        href := some portalItem.itemPageUrl
        label := some "Thumbnail of map" }
    { s with navLogo := some logo }
  | _, _ => s

/-- `hideLoader(reason)`: looks up `calcite-loader`; if found and not
already hidden, sets `hidden` and logs the reason; otherwise no-op.  The
source's default argument is `reason = 'view ready'`; all call sites in
the repository pass the reason explicitly. -/
def hideLoader (reason : String) (s : ServiceState) : ServiceState :=
  match s.loader with
  | none => s
  | some loader =>
    if loader.hidden then s
    else
      { s with loader := some { hidden := true }
               log := s.log ++ ["Loader hidden (" ++ reason ++ ")"] }

/-- `hideLoaderOnFirstLayerCreate()`: no-op without a stored view;
otherwise registers a `layerview-create` listener whose callback hides
the loader and removes itself. -/
def hideLoaderOnFirstLayerCreate (s : ServiceState) : ServiceState :=
  match s._view with
  | none => s
  | some v =>
    let v1 : MapView :=
      { v with subs := v.subs ++ [{ active := true, invocations := 0 }] }
    { s with _view := some v1 }

/-- `goTo(center, zoom = 10)`: `return this._view?.goTo({center, zoom})` —
absent result without a stored view, otherwise the delegated navigation
request (camera state itself belongs to the external engine). -/
def goTo (center : ℚ × ℚ) (zoom : ℚ) (s : ServiceState) :
    ServiceState × Option GoToRequest :=
  match s._view with
  | none => (s, none)
  | some v => (s, some { viewId := v.id, center := center, zoom := zoom })

/-- `clearGraphics()`: `this._view?.graphics.removeAll()`. -/
def clearGraphics (s : ServiceState) : ServiceState :=
  match s._view with
  | none => s
  | some v => { s with _view := some { v with graphics := [] } }

/-- The fixed two-line popup template attached to every marker. -/
def markerPopupTemplate : PopupTemplate :=
  { title := "{title}", content := "Lon: {lon}<br>Lat: {lat}" }

/-- The `Graphic` constructed by `dropMarker` for a given lon/lat/title. -/
def markerGraphic (lon lat : ℚ) (title : String) : Graphic :=
  { geometry := { longitude := lon, latitude := lat }
    symbolSize := 10
    attributes := { title := title, lon := lon, lat := lat }
    popupTemplate := markerPopupTemplate }

/-- `dropMarker(lon, lat, title = 'Point')`: no-op without a stored view;
otherwise adds the marker graphic to the view's graphics collection and
then calls `this._view.popup!.open({features: [g], location: g.geometry})`.
When `popup` is absent the non-null assertion throws: the error marker is
`some ()` and the state keeps every mutation made before the throw.  The
source's redundant second `if (!this._view) return` (a TypeScript
narrowing aid) is statically satisfied here. -/
def dropMarker (lon lat : ℚ) (title : String) (s : ServiceState) :
    ServiceState × Option Unit :=
  match s._view with
  | none => (s, none)
  | some v =>
    let g := markerGraphic lon lat title
    let v1 : MapView := { v with graphics := v.graphics ++ [g] }
    let s1 : ServiceState := { s with _view := some v1 }
    match v1.popup with
    | none => (s1, some ())
    | some _ =>
      let opened : Popup :=
        { openArgs := some { features := [g], location := g.geometry } }
      let v2 : MapView := { v1 with popup := some opened }
      ({ s1 with _view := some v2 }, none)

end MapService

/-- One step of an `EventHandle` under a delivered `layerview-create`
event: an attached handle runs its callback (counted) and removes itself;
a removed handle is untouched. -/
def subStep (h : EventHandle) : EventHandle :=
  if h.active then { active := false, invocations := h.invocations + 1 } else h

/-- Run the registered `layerview-create` callbacks in registration order,
threading the state: each attached callback hides the loader with reason
"layerview-create" and removes its own handle. -/
def fireSubs (s : ServiceState) : List EventHandle → ServiceState × List EventHandle
  | [] => (s, [])
  | h :: rest =>
    if h.active then
      let p := fireSubs (MapService.hideLoader "layerview-create" s) rest
      (p.1, { active := false, invocations := h.invocations + 1 } :: p.2)
    else
      let p := fireSubs s rest
      (p.1, h :: p.2)

/-- Deliver one `layerview-create` event from the stored view to its
registered listeners (no view, no event source). -/
def fireLayerviewCreate (s : ServiceState) : ServiceState :=
  match s._view with
  | none => s
  | some v =>
    let p := fireSubs s v.subs
    { p.1 with _view := some { v with subs := p.2 } }

/-- The notification received by `arcgisViewReadyChange`: the view may be
exposed through the `detail.view` chain or through `target.view`; either
chain may come up absent. -/
structure ReadyEvent where
  detailView : Option MapView
  targetView : Option MapView
deriving DecidableEq, Repr

/-- `(event as any)?.detail?.view ?? (event.target as any)?.view`. -/
def extractView (e : ReadyEvent) : Option MapView :=
  match e.detailView with
  | some v => some v
  | none => e.targetView

/-- `console.log` / `console.warn`: append one line to the log. -/
def logAppend (msg : String) (s : ServiceState) : ServiceState :=
  { s with log := s.log ++ [msg] }

/-- `setTimeout(() => hideLoader(reason), delayMs)`: enqueue the deferred
dismissal. -/
def scheduleTimeout (delayMs : Nat) (reason : String) (s : ServiceState) : ServiceState :=
  { s with timeouts := s.timeouts ++ [{ delayMs := delayMs, reason := reason }] }

/-- `App.arcgisViewReadyChange(event)`: log, extract the view
(detail.view first, target.view second), warn-and-return if absent;
otherwise log, store the view, update the header, hide the loader with
reason "view ready", register the first-layer-create dismissal, and
schedule the 5000 ms "timeout fallback" dismissal. -/
def arcgisViewReadyChange (e : ReadyEvent) (s : ServiceState) : ServiceState :=
  let s0 := logAppend "arcgisViewReadyChange fired" s
  match extractView e with
  | none => logAppend "MapView not found on event (detail.view/target.view)" s0
  | some v =>
    let s1 := logAppend "MapView is ready" s0
    let s2 := MapService.setView v s1
    let s3 := MapService.updateHeaderFromPortalItem s2
    let s4 := MapService.hideLoader "view ready" s3
    let s5 := MapService.hideLoaderOnFirstLayerCreate s4
    scheduleTimeout 5000 "timeout fallback" s5

/-! ### Shared concrete states (used by witnesses and examples) -/

/-- The portal item of the spec's header scenario. -/
def demoItem : PortalItem :=
  { title := "Parks", snippet := none, thumbnailUrl := "t.png", itemPageUrl := "p.html" }

/-- A header element with nothing written yet. -/
def emptyLogo : NavLogo :=
  { heading := none, description := none, thumbnail := none, href := none, label := none }

/-- A handle whose map carries `demoItem`, with an empty graphics
collection, a present popup and no listeners. -/
def demoView : MapView :=
  { id := 1, map := some { portalItem := some demoItem }, graphics := []
    popup := some { openArgs := none }, subs := [] }

/-- A state with `demoView` stored, an unwritten header element and a
visible loader. -/
def demoState : ServiceState :=
  { _view := some demoView, navLogo := some emptyLogo
    loader := some { hidden := false }, log := [], timeouts := [] }

/-- A state with no handle stored. -/
def noViewState : ServiceState :=
  { _view := none, navLogo := some emptyLogo
    loader := some { hidden := false }, log := [], timeouts := [] }

/-! ### Structural helper lemmas -/

@[simp] theorem setView_view_eq (v : MapView) (s : ServiceState) :
    (MapService.setView v s)._view = some v := rfl

@[simp] theorem logAppend_view_eq (m : String) (s : ServiceState) :
    (logAppend m s)._view = s._view := rfl

@[simp] theorem scheduleTimeout_view_eq (d : Nat) (r : String) (s : ServiceState) :
    (scheduleTimeout d r s)._view = s._view := rfl

@[simp] theorem updateHeader_view_eq (s : ServiceState) :
    (MapService.updateHeaderFromPortalItem s)._view = s._view := by
  unfold MapService.updateHeaderFromPortalItem
  cases MapService.portalItemChain s <;> cases s.navLogo <;> rfl

@[simp] theorem hideLoader_view_eq (r : String) (s : ServiceState) :
    (MapService.hideLoader r s)._view = s._view := by
  unfold MapService.hideLoader
  cases s.loader with
  | none => rfl
  | some ld => cases ld with | mk b => cases b <;> rfl

@[simp] theorem updateHeader_timeouts_eq (s : ServiceState) :
    (MapService.updateHeaderFromPortalItem s).timeouts = s.timeouts := by
  unfold MapService.updateHeaderFromPortalItem
  cases MapService.portalItemChain s <;> cases s.navLogo <;> rfl

@[simp] theorem hideLoader_timeouts_eq (r : String) (s : ServiceState) :
    (MapService.hideLoader r s).timeouts = s.timeouts := by
  unfold MapService.hideLoader
  cases s.loader with
  | none => rfl
  | some ld => cases ld with | mk b => cases b <;> rfl

@[simp] theorem hideLoaderOnFirst_timeouts_eq (s : ServiceState) :
    (MapService.hideLoaderOnFirstLayerCreate s).timeouts = s.timeouts := by
  unfold MapService.hideLoaderOnFirstLayerCreate
  cases s._view <;> rfl

theorem updateHeader_guard_fails (s : ServiceState)
    (h : MapService.portalItemChain s = none ∨ s.navLogo = none) :
    MapService.updateHeaderFromPortalItem s = s := by
  cases h with
  | inl hc =>
    unfold MapService.updateHeaderFromPortalItem
    rw [hc]
  | inr hl =>
    unfold MapService.updateHeaderFromPortalItem
    rw [hl]
    cases MapService.portalItemChain s <;> rfl

theorem hideLoaderOnFirst_view_some (s : ServiceState) (v : MapView)
    (h : s._view = some v) :
    (MapService.hideLoaderOnFirstLayerCreate s)._view =
      some { v with subs := v.subs ++ [{ active := true, invocations := 0 }] } := by
  unfold MapService.hideLoaderOnFirstLayerCreate
  rw [h]

/-! ### C6: setView / getView -/

/-- C6: `setView` is an unconditional overwrite of the single stored slot
with no other effect, and the `view` getter is a pure read: after
`setView h1; setView h2` the getter returns `h2`; after `setView h` it
returns `h`; on the initial state (before any `setView`) it returns the
absent marker. -/
theorem setView_overwrite_getView_reads (s : ServiceState) (h h1 h2 : MapView)
    (nl : Option NavLogo) (ld : Option Loader) :
    MapService.view (MapService.setView h2 (MapService.setView h1 s)) = some h2
    ∧ MapService.view (MapService.setView h s) = some h
    ∧ MapService.setView h s = { s with _view := some h }
    ∧ MapService.view (initState nl ld) = none :=
  ⟨rfl, rfl, rfl, rfl⟩

/-! ### C2: hideLoader idempotence -/

/-- C2: `hideLoader` is idempotent — a second call in a row (with any
reason) is a no-op, so the observable state after one call equals the
state after two; when the loader element is absent or already hidden, a
single call changes nothing. -/
theorem hideLoader_idempotent (s : ServiceState) (r r' : String) :
    MapService.hideLoader r' (MapService.hideLoader r s) = MapService.hideLoader r s
    ∧ (s.loader = none → MapService.hideLoader r s = s)
    ∧ (s.loader = some { hidden := true } → MapService.hideLoader r s = s) := by
  refine ⟨?_, ?_, ?_⟩
  · cases hl : s.loader with
    | none => simp [MapService.hideLoader, hl]
    | some ld =>
      cases hh : ld.hidden with
      | true => simp [MapService.hideLoader, hl, hh]
      | false => simp [MapService.hideLoader, hl, hh]
  · intro hl
    simp [MapService.hideLoader, hl]
  · intro hl
    simp [MapService.hideLoader, hl]

/-- Witness for C2 at a concrete state: a visible loader is dismissed
exactly once by two successive calls, and a call on an already-hidden
loader changes nothing. -/
theorem hideLoader_idempotent_witness :
    MapService.hideLoader "view ready" (MapService.hideLoader "view ready" demoState) =
      MapService.hideLoader "view ready" demoState
    ∧ MapService.hideLoader "view ready" { demoState with loader := some { hidden := true } } =
      { demoState with loader := some { hidden := true } } :=
  ⟨(hideLoader_idempotent demoState "view ready" "view ready").1,
   (hideLoader_idempotent { demoState with loader := some { hidden := true } }
      "view ready" "view ready").2.2 rfl⟩

/-! ### C1: all-or-nothing header update -/

/-- The five-field header value written once the guard passes. -/
def writtenHeader (item : PortalItem) : NavLogo :=
  { heading := some item.title
    description := some (item.snippet.getD "")
    thumbnail := some item.thumbnailUrl
    href := some item.itemPageUrl
    label := some "Thumbnail of map" }

/-- C1: when the `map→portalItem` chain and the header element are both
present, `updateHeaderFromPortalItem` writes all five header fields
(heading := title, description := snippet or "" when absent,
thumbnail := thumbnail URL, href := item page URL,
label := "Thumbnail of map"); if either is absent it writes nothing —
a partial write of the five fields never occurs. -/
theorem updateHeader_all_or_nothing (s : ServiceState) (item : PortalItem) :
    (MapService.portalItemChain s = some item → s.navLogo.isSome = true →
      MapService.updateHeaderFromPortalItem s = { s with navLogo := some (writtenHeader item) })
    ∧ ((MapService.portalItemChain s = none ∨ s.navLogo = none) →
      MapService.updateHeaderFromPortalItem s = s) := by
  constructor
  · intro hc hl
    cases hnl : s.navLogo with
    | none => rw [hnl] at hl; cases hl
    | some logo =>
      unfold MapService.updateHeaderFromPortalItem
      rw [hc, hnl]
      rfl
  · exact updateHeader_guard_fails s

/-- Witness for C1, the spec's scenario: item
{title "Parks", snippet absent, thumbnailUrl "t.png", itemPageUrl "p.html"}
with a present header element yields exactly
{heading "Parks", description "", thumbnail "t.png", href "p.html",
label "Thumbnail of map"}. -/
theorem updateHeader_all_or_nothing_witness :
    MapService.updateHeaderFromPortalItem demoState =
      { demoState with navLogo := some { heading := some "Parks", description := some "", thumbnail := some "t.png", href := some "p.html", label := some "Thumbnail of map" } } :=
  (updateHeader_all_or_nothing demoState demoItem).1 rfl rfl

/-! ### C3: dual-path extraction and adoption -/

/-- The ready-notification of the witnesses: handle exposed only at
`target.view`. -/
def demoEventB : ReadyEvent := { detailView := none, targetView := some demoView }

/-- C3: the handler extracts the handle by trying `detail.view` first and
`target.view` second, adopting the first non-absent one; a handle exposed
only at `target.view` is still adopted and stored (with the
`layerview-create` listener the handler itself registers on it). -/
theorem extract_path_fallback (s : ServiceState) (e : ReadyEvent) (v : MapView) :
    (e.detailView = some v → extractView e = some v)
    ∧ (e.detailView = none → extractView e = e.targetView)
    ∧ (e.detailView = none → e.targetView = some v →
        (arcgisViewReadyChange e s)._view =
          some { v with subs := v.subs ++ [{ active := true, invocations := 0 }] }) := by
  refine ⟨?_, ?_, ?_⟩
  · intro hd
    simp [extractView, hd]
  · intro hd
    simp [extractView, hd]
  · intro hd ht
    have hx : extractView e = some v := by simp [extractView, hd, ht]
    unfold arcgisViewReadyChange
    rw [hx]
    rw [scheduleTimeout_view_eq]
    rw [hideLoaderOnFirst_view_some _ v]
    rw [hideLoader_view_eq, updateHeader_view_eq, setView_view_eq]

/-- Witness for C3: a notification exposing `demoView` only at
`target.view` still gets it stored. -/
theorem extract_path_fallback_witness :
    (arcgisViewReadyChange demoEventB demoState)._view =
      some { demoView with subs := [{ active := true, invocations := 0 }] } :=
  (extract_path_fallback demoState demoEventB demoView).2.2 rfl rfl

/-! ### C4: handle missing at both paths -/

/-- C4: when the notification carries no handle at `detail.view` or
`target.view`, the handler mutates nothing (stored handle, header,
loader and timeout queue unchanged), appends the diagnostic warning to
the console log, and returns (it is a total function). -/
theorem handler_missing_view_no_mutation (s : ServiceState) (e : ReadyEvent)
    (hA : e.detailView = none) (hB : e.targetView = none) :
    (arcgisViewReadyChange e s)._view = s._view
    ∧ (arcgisViewReadyChange e s).navLogo = s.navLogo
    ∧ (arcgisViewReadyChange e s).loader = s.loader
    ∧ (arcgisViewReadyChange e s).timeouts = s.timeouts
    ∧ (arcgisViewReadyChange e s).log =
        s.log ++ ["arcgisViewReadyChange fired",
                  "MapView not found on event (detail.view/target.view)"] := by
  have hx : extractView e = none := by simp [extractView, hA, hB]
  unfold arcgisViewReadyChange
  rw [hx]
  refine ⟨rfl, rfl, rfl, rfl, ?_⟩
  simp [logAppend]

/-- Witness for C4 at a concrete empty notification and `demoState`. -/
theorem handler_missing_view_no_mutation_witness :
    (arcgisViewReadyChange { detailView := none, targetView := none } demoState)._view =
      demoState._view
    ∧ (arcgisViewReadyChange { detailView := none, targetView := none } demoState).navLogo =
      demoState.navLogo
    ∧ (arcgisViewReadyChange { detailView := none, targetView := none } demoState).loader =
      demoState.loader
    ∧ (arcgisViewReadyChange { detailView := none, targetView := none } demoState).timeouts =
      demoState.timeouts
    ∧ (arcgisViewReadyChange { detailView := none, targetView := none } demoState).log =
      demoState.log ++ ["arcgisViewReadyChange fired",
                        "MapView not found on event (detail.view/target.view)"] :=
  handler_missing_view_no_mutation demoState { detailView := none, targetView := none } rfl rfl

/-! ### C5: the handler's sequence and the unconditional fallback -/

/-- C5: when a handle is extracted, the handler is exactly the ordered
composition (1) `setView`, (2) `updateHeaderFromPortalItem`,
(3) `hideLoader "view ready"`, (4) `hideLoaderOnFirstLayerCreate`,
(5) scheduling of `hideLoader "timeout fallback"` after 5000 ms — and the
5000 ms fallback is enqueued unconditionally, whatever the loader state
reached by the earlier steps. -/
theorem handler_sequence (e : ReadyEvent) (s : ServiceState) (v : MapView)
    (h : extractView e = some v) :
    arcgisViewReadyChange e s =
      scheduleTimeout 5000 "timeout fallback"
        (MapService.hideLoaderOnFirstLayerCreate
          (MapService.hideLoader "view ready"
            (MapService.updateHeaderFromPortalItem
              (MapService.setView v
                (logAppend "MapView is ready"
                  (logAppend "arcgisViewReadyChange fired" s))))))
    ∧ (arcgisViewReadyChange e s).timeouts =
        s.timeouts ++ [{ delayMs := 5000, reason := "timeout fallback" }] := by
  constructor
  · unfold arcgisViewReadyChange
    rw [h]
  · unfold arcgisViewReadyChange
    rw [h]
    show (scheduleTimeout 5000 "timeout fallback" _).timeouts = _
    unfold scheduleTimeout
    rw [hideLoaderOnFirst_timeouts_eq, hideLoader_timeouts_eq, updateHeader_timeouts_eq]
    rfl

/-- Witness for C5: the concrete target-path notification on `demoState`
runs the full sequence and enqueues the 5000 ms fallback. -/
theorem handler_sequence_witness :
    arcgisViewReadyChange demoEventB demoState =
      scheduleTimeout 5000 "timeout fallback"
        (MapService.hideLoaderOnFirstLayerCreate
          (MapService.hideLoader "view ready"
            (MapService.updateHeaderFromPortalItem
              (MapService.setView demoView
                (logAppend "MapView is ready"
                  (logAppend "arcgisViewReadyChange fired" demoState))))))
    ∧ (arcgisViewReadyChange demoEventB demoState).timeouts =
        demoState.timeouts ++ [{ delayMs := 5000, reason := "timeout fallback" }] :=
  handler_sequence demoEventB demoState demoView rfl

/-! ### C7: defensive no-ops on absent dependencies -/

/-- C7: every operation that depends on the optional stored handle or an
optional UI element checks presence first and, when the dependency is
absent, is a silent no-op (all are total functions, so none can throw);
in particular `goTo` with no stored handle returns the absent result and
leaves the state untouched. -/
theorem absent_dependency_noop (s : ServiceState) (reason : String)
    (center : ℚ × ℚ) (zoom lon lat : ℚ) (title : String) :
    ((MapService.portalItemChain s = none ∨ s.navLogo = none) →
      MapService.updateHeaderFromPortalItem s = s)
    ∧ (s.loader = none → MapService.hideLoader reason s = s)
    ∧ (s._view = none → MapService.hideLoaderOnFirstLayerCreate s = s)
    ∧ (s._view = none → MapService.goTo center zoom s = (s, none))
    ∧ (s._view = none → MapService.clearGraphics s = s)
    ∧ (s._view = none → MapService.dropMarker lon lat title s = (s, none)) := by
  refine ⟨updateHeader_guard_fails s, ?_, ?_, ?_, ?_, ?_⟩
  · intro hl
    simp [MapService.hideLoader, hl]
  · intro hv
    simp [MapService.hideLoaderOnFirstLayerCreate, hv]
  · intro hv
    simp [MapService.goTo, hv]
  · intro hv
    simp [MapService.clearGraphics, hv]
  · intro hv
    simp [MapService.dropMarker, hv]

/-- Witness for C7, the spec's scenario plus neighbours: with no handle
stored, `goTo([10,20], 5)` yields the absent result with the state
untouched, and `dropMarker`, `clearGraphics`,
`hideLoaderOnFirstLayerCreate` are no-ops. -/
theorem absent_dependency_noop_witness :
    MapService.goTo (10, 20) 5 noViewState = (noViewState, none)
    ∧ MapService.dropMarker 1 2 "Point" noViewState = (noViewState, none)
    ∧ MapService.clearGraphics noViewState = noViewState
    ∧ MapService.hideLoaderOnFirstLayerCreate noViewState = noViewState :=
  ⟨(absent_dependency_noop noViewState "view ready" (10, 20) 5 1 2 "Point").2.2.2.1 rfl,
   (absent_dependency_noop noViewState "view ready" (10, 20) 5 1 2 "Point").2.2.2.2.2 rfl,
   (absent_dependency_noop noViewState "view ready" (10, 20) 5 1 2 "Point").2.2.2.2.1 rfl,
   (absent_dependency_noop noViewState "view ready" (10, 20) 5 1 2 "Point").2.2.1 rfl⟩

/-! ### C10: only setView writes the stored-handle slot -/

/-- C10: none of the other service operations reassigns the `_view` slot:
`updateHeaderFromPortalItem`, `hideLoader` and `goTo` leave the slot's
content identical, and `hideLoaderOnFirstLayerCreate`, `clearGraphics`
and `dropMarker` — which mutate the stored object's interior (listeners,
graphics, popup) through the same reference — keep the slot pointing at
the same object: presence and object identity (`handleId`) are
preserved by all six. -/
theorem only_setView_writes_slot (s : ServiceState) (reason : String)
    (center : ℚ × ℚ) (zoom lon lat : ℚ) (title : String) :
    (MapService.updateHeaderFromPortalItem s)._view = s._view
    ∧ (MapService.hideLoader reason s)._view = s._view
    ∧ (MapService.goTo center zoom s).1 = s
    ∧ handleId (MapService.hideLoaderOnFirstLayerCreate s) = handleId s
    ∧ handleId (MapService.clearGraphics s) = handleId s
    ∧ handleId (MapService.dropMarker lon lat title s).1 = handleId s := by
  refine ⟨updateHeader_view_eq s, hideLoader_view_eq reason s, ?_, ?_, ?_, ?_⟩
  · unfold MapService.goTo
    cases s._view <;> rfl
  · unfold MapService.hideLoaderOnFirstLayerCreate
    cases hv : s._view <;> simp [handleId, hv]
  · unfold MapService.clearGraphics
    cases hv : s._view <;> simp [handleId, hv]
  · unfold MapService.dropMarker
    cases hv : s._view with
    | none => simp [handleId, hv]
    | some v => cases hp : v.popup <;> simp [handleId, hv, hp]

/-! ### C8: dropMarker adds the marker, then opens the popup -/

theorem dropMarker_eq_noPopup (s : ServiceState) (v : MapView) (lon lat : ℚ)
    (title : String) (h : s._view = some v) (hp : v.popup = none) :
    MapService.dropMarker lon lat title s =
      ({ s with _view := some { v with graphics := v.graphics ++ [MapService.markerGraphic lon lat title] } },
       some ()) := by
  unfold MapService.dropMarker
  rw [h]
  simp [hp]

theorem dropMarker_eq_withPopup (s : ServiceState) (v : MapView) (lon lat : ℚ)
    (title : String) (p : Popup) (h : s._view = some v) (hp : v.popup = some p) :
    MapService.dropMarker lon lat title s =
      ({ s with _view := some { v with graphics := v.graphics ++ [MapService.markerGraphic lon lat title], popup := some { openArgs := some { features := [MapService.markerGraphic lon lat title], location := (MapService.markerGraphic lon lat title).geometry } } } },
       none) := by
  unfold MapService.dropMarker
  rw [h]
  simp [hp]

/-- C8: with a handle stored, `dropMarker` first appends exactly one
marker graphic — attributes {title, lon, lat} (title "Point" when the
default is taken), point geometry (lon, lat), the fixed two-line popup
template — to the handle's graphics collection (an empty collection has
size 1 afterwards), and then as a separate second side effect opens the
handle's popup anchored at the graphic's geometry with the graphic as
its single feature; when the popup is absent, popup-open throws but the
marker remains added (no rollback). -/
theorem dropMarker_adds_then_opens (s : ServiceState) (v : MapView) (lon lat : ℚ)
    (title : String) (h : s._view = some v) :
    (∃ v' : MapView, (MapService.dropMarker lon lat title s).1._view = some v'
      ∧ v'.graphics = v.graphics ++ [MapService.markerGraphic lon lat title]
      ∧ v'.id = v.id)
    ∧ (v.graphics = [] → ∃ v' : MapView,
        (MapService.dropMarker lon lat title s).1._view = some v'
        ∧ v'.graphics.length = 1)
    ∧ (MapService.markerGraphic lon lat title).attributes =
        { title := title, lon := lon, lat := lat }
    ∧ (MapService.markerGraphic lon lat "Point").attributes.title = "Point"
    ∧ (MapService.markerGraphic lon lat title).geometry =
        { longitude := lon, latitude := lat }
    ∧ (MapService.markerGraphic lon lat title).popupTemplate =
        { title := "{title}", content := "Lon: {lon}<br>Lat: {lat}" }
    ∧ (v.popup = none → (MapService.dropMarker lon lat title s).2 = some ()
        ∧ ∃ v' : MapView, (MapService.dropMarker lon lat title s).1._view = some v'
          ∧ MapService.markerGraphic lon lat title ∈ v'.graphics)
    ∧ (∀ p : Popup, v.popup = some p →
        (MapService.dropMarker lon lat title s).2 = none
        ∧ ∃ v' : MapView, (MapService.dropMarker lon lat title s).1._view = some v'
          ∧ v'.popup = some { openArgs := some { features := [MapService.markerGraphic lon lat title], location := (MapService.markerGraphic lon lat title).geometry } }) := by
  cases hp : v.popup with
  | none =>
    rw [dropMarker_eq_noPopup s v lon lat title h hp]
    refine ⟨⟨_, rfl, rfl, rfl⟩, ?_, rfl, rfl, rfl, rfl, ?_, ?_⟩
    · intro hg
      refine ⟨_, rfl, ?_⟩
      rw [hg]
      rfl
    · intro _
      exact ⟨rfl, _, rfl, by simp⟩
    · intro p hpp
      cases hpp
  | some p0 =>
    rw [dropMarker_eq_withPopup s v lon lat title p0 h hp]
    refine ⟨⟨_, rfl, rfl, rfl⟩, ?_, rfl, rfl, rfl, rfl, ?_, ?_⟩
    · intro hg
      refine ⟨_, rfl, ?_⟩
      rw [hg]
      rfl
    · intro hpn
      cases hpn
    · intro p hpp
      exact ⟨rfl, _, rfl, rfl⟩

/-- Witness for C8, the spec's scenario: `dropMarker(-117.2, 34.0, "Camp")`
on `demoState` (empty graphics collection) yields a collection of size 1
and the expected marker attributes. -/
theorem dropMarker_adds_then_opens_witness :
    (MapService.markerGraphic (-117.2 : ℚ) 34 "Camp").attributes =
      { title := "Camp", lon := -117.2, lat := 34 }
    ∧ ((MapService.dropMarker (-117.2 : ℚ) 34 "Camp" demoState).1._view.map
        (fun w => w.graphics.length)) = some 1 := by
  refine ⟨(dropMarker_adds_then_opens demoState demoView (-117.2 : ℚ) 34 "Camp" rfl).2.2.1, ?_⟩
  obtain ⟨v', hv, hl⟩ :=
    (dropMarker_adds_then_opens demoState demoView (-117.2 : ℚ) 34 "Camp" rfl).2.1 rfl
  rw [hv]
  simp [hl]

/-! ### C9: at-most-one dismissal per layer-create subscription -/

theorem hideLoader_on_hidden (r : String) (s : ServiceState)
    (h : s.loader = some { hidden := true }) : MapService.hideLoader r s = s := by
  simp [MapService.hideLoader, h]

theorem hideLoader_loader_result (r : String) (s : ServiceState) (ld : Loader)
    (h : s.loader = some ld) :
    (MapService.hideLoader r s).loader = some { hidden := true } := by
  cases ld with
  | mk b => cases b <;> simp [MapService.hideLoader, h]

theorem fireSubs_snd (s : ServiceState) (l : List EventHandle) :
    (fireSubs s l).2 = l.map subStep := by
  induction l generalizing s with
  | nil => rfl
  | cons hd t ih =>
    cases hb : hd.active with
    | true => simp [fireSubs, hb, subStep, ih]
    | false => simp [fireSubs, hb, subStep, ih]

theorem fireSubs_fst_view (s : ServiceState) (l : List EventHandle) :
    (fireSubs s l).1._view = s._view := by
  induction l generalizing s with
  | nil => rfl
  | cons hd t ih =>
    cases hb : hd.active with
    | true => simp [fireSubs, hb, ih]
    | false => simp [fireSubs, hb, ih]

theorem fireSubs_loader_stays_hidden (l : List EventHandle) (s : ServiceState)
    (h : s.loader = some { hidden := true }) :
    (fireSubs s l).1.loader = some { hidden := true } := by
  induction l generalizing s with
  | nil => exact h
  | cons hd t ih =>
    cases hb : hd.active with
    | false => simpa [fireSubs, hb] using ih s h
    | true =>
      have h1 : MapService.hideLoader "layerview-create" s = s :=
        hideLoader_on_hidden _ s h
      simp only [fireSubs, hb, if_pos rfl, h1]
      exact ih s h

theorem fireSubs_hides (l : List EventHandle) (s : ServiceState) (ld : Loader)
    (hld : s.loader = some ld) (ha : ∃ e ∈ l, e.active = true) :
    (fireSubs s l).1.loader = some { hidden := true } := by
  induction l generalizing s ld with
  | nil => simp at ha
  | cons hd t ih =>
    cases hb : hd.active with
    | true =>
      have h1 : (MapService.hideLoader "layerview-create" s).loader =
          some { hidden := true } := hideLoader_loader_result _ s ld hld
      simp only [fireSubs, hb, if_pos rfl]
      exact fireSubs_loader_stays_hidden t _ h1
    | false =>
      rcases ha with ⟨e, he, hea⟩
      rcases List.mem_cons.mp he with rfl | het
      · rw [hb] at hea; cases hea
      · simp only [fireSubs, hb, Bool.false_eq_true, if_neg]
        exact ih s ld hld ⟨e, het, hea⟩

theorem subStep_idem (e : EventHandle) : subStep (subStep e) = subStep e := by
  cases e with
  | mk a i => cases a <;> simp [subStep]

theorem map_subStep_idem (l : List EventHandle) :
    (l.map subStep).map subStep = l.map subStep := by
  induction l with
  | nil => rfl
  | cons hd t ih => simp only [List.map_cons, subStep_idem, ih]

theorem fire_view_some (s : ServiceState) (v : MapView) (h : s._view = some v) :
    (fireLayerviewCreate s)._view = some { v with subs := v.subs.map subStep } := by
  simp [fireLayerviewCreate, h, fireSubs_snd]

theorem iterate_fire_view (n : Nat) (s : ServiceState) (v : MapView)
    (h : s._view = some v) :
    (fireLayerviewCreate^[n + 1] s)._view = some { v with subs := v.subs.map subStep } := by
  induction n generalizing s v with
  | zero => simpa using fire_view_some s v h
  | succ m ih =>
    rw [Function.iterate_succ_apply]
    have h2 := ih (fireLayerviewCreate s) { v with subs := v.subs.map subStep }
      (fire_view_some s v h)
    rw [h2, map_subStep_idem]

theorem hideLoaderOnFirst_eq (s : ServiceState) (v : MapView) (h : s._view = some v) :
    MapService.hideLoaderOnFirstLayerCreate s =
      { s with _view := some { v with subs := v.subs ++ [{ active := true, invocations := 0 }] } } := by
  unfold MapService.hideLoaderOnFirstLayerCreate
  rw [h]

theorem fire_loader_hidden (s : ServiceState)
    (h : s.loader = some { hidden := true }) :
    (fireLayerviewCreate s).loader = some { hidden := true } := by
  cases hv : s._view with
  | none => simp [fireLayerviewCreate, hv, h]
  | some v =>
    simp only [fireLayerviewCreate, hv]
    exact fireSubs_loader_stays_hidden v.subs s h

theorem iterate_fire_loader_hidden (n : Nat) (s : ServiceState)
    (h : s.loader = some { hidden := true }) :
    (fireLayerviewCreate^[n] s).loader = some { hidden := true } := by
  induction n generalizing s with
  | zero => exact h
  | succ m ih =>
    rw [Function.iterate_succ_apply]
    exact ih _ (fire_loader_hidden s h)

/-- C9: one call to `hideLoaderOnFirstLayerCreate` with a handle stored
registers one subscription; over any number `n` of subsequent
`layerview-create` deliveries, that subscription's callback runs at most
once — after the first delivery it has run exactly once and is
unsubscribed, so later deliveries never re-run it — and the first
delivery dismisses the loader (reason "layerview-create"); with no
handle stored the call is a no-op. -/
theorem layerviewCreate_at_most_once (s t : ServiceState) (v : MapView) (n : Nat)
    (h : s._view = some v) :
    (∃ e : EventHandle,
        ((fireLayerviewCreate^[n] (MapService.hideLoaderOnFirstLayerCreate s))._view.bind
          (fun w => w.subs[v.subs.length]?)) = some e
      ∧ e.invocations ≤ 1
      ∧ (1 ≤ n → e.active = false ∧ e.invocations = 1))
    ∧ (∀ ld : Loader, s.loader = some ld → 1 ≤ n →
        (fireLayerviewCreate^[n] (MapService.hideLoaderOnFirstLayerCreate s)).loader =
          some { hidden := true })
    ∧ (t._view = none → MapService.hideLoaderOnFirstLayerCreate t = t) := by
  have hs1 := hideLoaderOnFirst_eq s v h
  have hs1v : (MapService.hideLoaderOnFirstLayerCreate s)._view =
      some { v with subs := v.subs ++ [{ active := true, invocations := 0 }] } := by
    rw [hs1]
  refine ⟨?_, ?_, ?_⟩
  · cases n with
    | zero =>
      refine ⟨{ active := true, invocations := 0 }, ?_, Nat.zero_le 1, ?_⟩
      · rw [Function.iterate_zero_apply, hs1v]
        simp [List.getElem?_concat_length]
      · intro hn
        cases hn
    | succ m =>
      refine ⟨{ active := false, invocations := 1 }, ?_, Nat.le_refl 1, fun _ => ⟨rfl, rfl⟩⟩
      rw [iterate_fire_view m _ _ hs1v]
      simp [List.getElem?_map, List.getElem?_concat_length, subStep]
  · intro ld hld hn
    cases n with
    | zero => cases hn
    | succ m =>
      rw [Function.iterate_succ_apply]
      apply iterate_fire_loader_hidden
      have hsl : (MapService.hideLoaderOnFirstLayerCreate s).loader = some ld := by
        rw [hs1]; exact hld
      have hact : ∃ e ∈ ({ v with subs := v.subs ++ [{ active := true, invocations := 0 }] } : MapView).subs,
          e.active = true := by
        exact ⟨{ active := true, invocations := 0 }, by simp, rfl⟩
      simp only [fireLayerviewCreate, hs1v]
      exact fireSubs_hides _ _ ld hsl hact
  · intro ht
    simp [MapService.hideLoaderOnFirstLayerCreate, ht]

/-- Witness for C9: on `demoState` (visible loader, handle stored), after
registering the subscription and delivering two `layerview-create`
events, the loader is hidden (the second delivery cannot re-fire the
removed subscription, and redundant dismissals are no-ops). -/
theorem layerviewCreate_at_most_once_witness :
    (fireLayerviewCreate^[2] (MapService.hideLoaderOnFirstLayerCreate demoState)).loader =
      some { hidden := true } :=
  (layerviewCreate_at_most_once demoState noViewState demoView 2 rfl).2.1
    { hidden := false } rfl (by decide)
